import Mathlib

/-!
Shallow embedding of the express-mongodb-auth repository.

Source files embedded:
* `src/index.js` — the `POST /register` handler (validation, duplicate-email
  check via `User.findOne`, `newUser.save()` inside `try/catch`).
* `models/users.js` (its code appears verbatim in `src/README.md`) — the user
  schema `{name, email, password}` and the `pre("save")` hook that replaces
  `this.password` with `bcrypt.hash(password, await bcrypt.genSalt(10))`.

The bcryptjs library is external to the repository; it is modelled abstractly
but executably, keeping the contract stated in the spec: `hash` draws a salt,
embeds it in the digest string together with the cost factor, and `compare`
re-hashes the candidate password with the parameters embedded in the digest
and checks for equality.  The digest encoding below writes cost and salt in
unary between literal separator characters; the hashed body is a per-character
mix into lowercase letters.  Nothing in the claims depends on the particular
one-way function, only on the salt/cost embedding, the determinism of the body
for fixed (cost, salt, password), and the digest being distinct from the plain
text.

Randomness (`bcrypt.genSalt`) and infrastructure failures of the two Mongoose
calls (`User.findOne` rejecting, `newUser.save()` rejecting) are oracles in a
`DbEnv` record passed to the handler.  A rejection of `User.findOne` happens
outside the `try/catch` in `src/index.js`, so the handler sends no response at
all in that case; the model records this outcome as `response = none`.
-/

namespace ExpressAuth

/-- A JSON value as delivered by `express.json()` body parsing.  Numbers are
modelled as integers; the claims only ever exercise `0`. -/
inductive JsonValue where
  | jnull
  | jbool (b : Bool)
  | jnum (n : Int)
  | jstr (s : String)
deriving DecidableEq, Repr

/-- JavaScript truthiness of a possibly-absent body field, as tested by
`if (!name || !email || !password)` in `src/index.js`:
`undefined`, `null`, `false`, `0` and `""` are falsy. -/
def truthy : Option JsonValue → Bool
  | none => false
  | some .jnull => false
  | some (.jbool b) => b
  | some (.jnum n) => n != 0
  | some (.jstr s) => s != ""

/-- Mongoose's cast of a field value to the schema type `String`
(`name`, `email`, `password` are all `{ type: String }`).  Strings pass
through; numbers and booleans are stringified.  `jnull` is unreachable behind
the truthiness check and is mapped to the empty string. -/
def castString : JsonValue → String
  | .jnull => ""
  | .jbool true => "true"
  | .jbool false => "false"
  | .jnum n => toString n
  | .jstr s => s

/-- String view of a possibly-absent body field. -/
def fieldStr (v : Option JsonValue) : String :=
  castString (v.getD .jnull)

/-- A stored user document: the three schema fields of `models/users.js`. -/
structure User where
  name : String
  email : String
  password : String
deriving DecidableEq, Repr

/-- The persistence store: the `users` collection, as a list of documents in
insertion order. -/
abbrev Store := List User

/-- `User.findOne({ email })`: the first stored document whose `email` equals
the given string exactly. -/
def findByEmail (db : Store) (e : String) : Option User :=
  db.find? (fun u => u.email == e)

/-! ### The bcrypt model -/

/-- The cost factor used by the repository: `bcrypt.genSalt(10)`. -/
def bcryptCost : Nat := 10

/-- The hashed body of a digest: a one-way per-character mix of the password
into lowercase letters, parameterised by cost and salt.  Its exact formula is
a modelling choice for the external library; what matters is that it is a
function of `(cost, salt, pw)` and contains no separator character. -/
def bodyChars (cost salt : Nat) (pw : List Char) : List Char :=
  pw.map (fun c => Char.ofNat (97 + (c.toNat + salt + 7 * cost) % 26))

/-- `bcrypt.hash(pw, salt)`: a digest string embedding the cost factor and the
salt (in unary, between separator characters) followed by the hashed body. -/
def bcryptHash (cost salt : Nat) (pw : String) : String :=
  String.mk ('$' :: '2' :: 'b' :: '$' ::
    (List.replicate cost 'x' ++ '$' ::
      (List.replicate salt 'x' ++ '$' :: bodyChars cost salt pw.data)))

/-- Split a character list on a separator character (used by the model of
`bcrypt.compare` to take a digest apart). -/
def splitSep (sep : Char) : List Char → List (List Char)
  | [] => [[]]
  | c :: cs =>
    if c = sep then [] :: splitSep sep cs
    else
      match splitSep sep cs with
      | [] => [[c]]
      | p :: ps => (c :: p) :: ps

/-- `bcrypt.compare(pw, digest)`: recover the cost and salt embedded in the
digest, re-hash the candidate password with them, and compare with the stored
body. -/
def bcryptCompare (pw digest : String) : Bool :=
  match splitSep '$' digest.data with
  | [[], ['2', 'b'], costF, saltF, bodyF] =>
      bodyF == bodyChars costF.length saltF.length pw.data
  | _ => false

/-- `hashPassword` from the README example: hash with a fresh salt at the
repository's cost factor. -/
def hashPassword (salt : Nat) (password : String) : String :=
  bcryptHash bcryptCost salt password

/-- `verifyPassword` from the README example: compare an input password with a
stored digest. -/
def verifyPassword (inputPassword storedHash : String) : Bool :=
  bcryptCompare inputPassword storedHash

/-- A string is a bcrypt digest when it is the hash of some password at some
cost and salt. -/
def isBcryptDigest (s : String) : Prop :=
  ∃ cost salt pw, s = bcryptHash cost salt pw

/-! ### The registration handler -/

/-- The request body of `POST /register`: each of the three destructured
fields may be absent. -/
structure ReqBody where
  name : Option JsonValue
  email : Option JsonValue
  password : Option JsonValue
deriving DecidableEq, Repr

/-- The three responses the handler can send. -/
inductive HttpResponse where
  | created (message : String) (savedUser : User)
  | badRequest (message : String)
  | serverError (message : String)
deriving DecidableEq, Repr

/-- HTTP status code of a response. -/
def HttpResponse.status : HttpResponse → Nat
  | .created _ _ => 201
  | .badRequest _ => 400
  | .serverError _ => 500

/-- A persistence-store operation issued by the handler. -/
inductive DbOp where
  | read (email : String)
  | write (u : User)
deriving DecidableEq, Repr

/-- Whether a store operation is a read. -/
def DbOp.isRead : DbOp → Bool
  | .read _ => true
  | .write _ => false

/-- Whether a store operation is a write. -/
def DbOp.isWrite : DbOp → Bool
  | .read _ => false
  | .write _ => true

/-- Oracles for one handler invocation: whether `User.findOne` rejects,
whether `newUser.save()` rejects, and the salt drawn by `bcrypt.genSalt(10)`
inside the pre-save hook. -/
structure DbEnv where
  findOneFails : Bool
  saveFails : Bool
  salt : Nat
deriving DecidableEq, Repr

/-- Outcome of one handler invocation: the response sent (`none` when the
handler threw outside any `try/catch` and no response was sent), the store
afterwards, and the store operations issued, in order. -/
structure RegResult where
  response : Option HttpResponse
  store : Store
  ops : List DbOp
deriving DecidableEq, Repr

/-- All three fields truthy, the negation of the handler's
`!name || !email || !password` test. -/
def fieldsPresent (body : ReqBody) : Bool :=
  truthy body.name && truthy body.email && truthy body.password

/-- The document built by `new User({name, email, password})` as it stands
after the `pre("save")` hook replaced the password with its bcrypt hash. -/
def newUserOf (env : DbEnv) (body : ReqBody) : User :=
  ⟨fieldStr body.name, fieldStr body.email,
    bcryptHash bcryptCost env.salt (fieldStr body.password)⟩

/-- The `POST /register` handler of `src/index.js`:
1. destructure `{name, email, password}` and reject with
   400 "All fields are required." when any is falsy;
2. `await User.findOne({ email })` — a rejection here is outside the
   `try/catch`, so no response is sent;
3. reject with 400 "Email is already registered." when a document with that
   email exists;
4. otherwise build the new user, hash its password in the pre-save hook, and
   `await newUser.save()` inside `try`: a rejection yields
   500 "Server error", success appends the document and yields
   201 with the saved user in the body. -/
def registerHandler (env : DbEnv) (body : ReqBody) (db : Store) : RegResult :=
  if !truthy body.name || !truthy body.email || !truthy body.password then
    ⟨some (.badRequest "All fields are required."), db, []⟩
  else if env.findOneFails then
    ⟨none, db, [.read (fieldStr body.email)]⟩
  else
    match findByEmail db (fieldStr body.email) with
    | some _ =>
        ⟨some (.badRequest "Email is already registered."), db,
          [.read (fieldStr body.email)]⟩
    | none =>
        let u := newUserOf env body
        if env.saveFails then
          ⟨some (.serverError "Server error"), db,
            [.read (fieldStr body.email), .write u]⟩
        else
          ⟨some (.created "User registered successfully!" u), db ++ [u],
            [.read (fieldStr body.email), .write u]⟩

/-- All stored documents have pairwise-distinct emails (exact string
equality). -/
def distinctEmails (db : Store) : Prop :=
  db.Pairwise (fun u v => u.email ≠ v.email)

/-! ### Lemmas about the bcrypt model -/

theorem data_mk (l : List Char) : (String.mk l).data = l := rfl

theorem splitSep_of_not_mem (sep : Char) (l : List Char) (h : sep ∉ l) :
    splitSep sep l = [l] := by
  induction l with
  | nil => rfl
  | cons c cs ih =>
    rw [splitSep, if_neg (fun hc : c = sep => h (hc ▸ List.mem_cons_self c cs)),
      ih (fun hm => h (List.mem_cons_of_mem c hm))]

theorem splitSep_append (sep : Char) (l₁ l₂ : List Char) (h : sep ∉ l₁) :
    splitSep sep (l₁ ++ sep :: l₂) = l₁ :: splitSep sep l₂ := by
  induction l₁ with
  | nil => simp [splitSep]
  | cons c cs ih =>
    rw [List.cons_append, splitSep,
      if_neg (fun hc : c = sep => h (hc ▸ List.mem_cons_self c cs)),
      ih (fun hm => h (List.mem_cons_of_mem c hm))]

theorem mix_ne_dollar (k : Nat) : Char.ofNat (97 + k % 26) ≠ '$' := by
  have h : k % 26 < 26 := Nat.mod_lt _ (by decide)
  have hall : ∀ r : Fin 26, Char.ofNat (97 + r.val) ≠ '$' := by decide
  exact hall ⟨k % 26, h⟩

theorem dollar_not_mem_bodyChars (cost salt : Nat) (pw : List Char) :
    '$' ∉ bodyChars cost salt pw := by
  intro hm
  rcases List.mem_map.mp hm with ⟨c, _, hc⟩
  exact mix_ne_dollar _ hc

theorem dollar_not_mem_rep (n : Nat) : '$' ∉ List.replicate n 'x' := by
  intro hm
  exact absurd (List.eq_of_mem_replicate hm) (by decide)

theorem splitSep_hashData (cost salt : Nat) (pw : List Char) :
    splitSep '$' ('$' :: '2' :: 'b' :: '$' ::
      (List.replicate cost 'x' ++ '$' ::
        (List.replicate salt 'x' ++ '$' :: bodyChars cost salt pw))) =
    [[], ['2', 'b'], List.replicate cost 'x', List.replicate salt 'x',
      bodyChars cost salt pw] := by
  rw [splitSep, if_pos rfl,
    show ('2' :: 'b' :: '$' :: (List.replicate cost 'x' ++ '$' ::
        (List.replicate salt 'x' ++ '$' :: bodyChars cost salt pw)))
      = ['2', 'b'] ++ '$' :: (List.replicate cost 'x' ++ '$' ::
        (List.replicate salt 'x' ++ '$' :: bodyChars cost salt pw)) from rfl,
    splitSep_append _ _ _ (by decide),
    splitSep_append _ _ _ (dollar_not_mem_rep cost),
    splitSep_append _ _ _ (dollar_not_mem_rep salt),
    splitSep_of_not_mem _ _ (dollar_not_mem_bodyChars cost salt pw)]

theorem bcryptCompare_hash (cost salt : Nat) (pw : String) :
    bcryptCompare pw (bcryptHash cost salt pw) = true := by
  unfold bcryptCompare
  rw [show (bcryptHash cost salt pw).data = '$' :: '2' :: 'b' :: '$' ::
      (List.replicate cost 'x' ++ '$' ::
        (List.replicate salt 'x' ++ '$' :: bodyChars cost salt pw.data)) from rfl,
    splitSep_hashData]
  simp

theorem bcryptHash_data_length (cost salt : Nat) (pw : String) :
    (bcryptHash cost salt pw).data.length = pw.data.length + cost + salt + 6 := by
  simp [bcryptHash, bodyChars]
  omega

theorem bcryptHash_ne_plain (cost salt : Nat) (pw : String) :
    bcryptHash cost salt pw ≠ pw := by
  intro h
  have h1 : (bcryptHash cost salt pw).data.length = pw.data.length := by rw [h]
  rw [bcryptHash_data_length] at h1
  omega

theorem bcryptHash_salt_ne (cost s₁ s₂ : Nat) (pw : String) (h : s₁ ≠ s₂) :
    bcryptHash cost s₁ pw ≠ bcryptHash cost s₂ pw := by
  intro he
  have h1 : (bcryptHash cost s₁ pw).data.length
      = (bcryptHash cost s₂ pw).data.length := by rw [he]
  rw [bcryptHash_data_length, bcryptHash_data_length] at h1
  omega

/-! ### Branch lemmas for the handler -/

theorem bang_or (body : ReqBody) :
    (!truthy body.name || !truthy body.email || !truthy body.password)
      = !fieldsPresent body := by
  simp [fieldsPresent]

theorem register_not_present (env : DbEnv) (body : ReqBody) (db : Store)
    (h : fieldsPresent body = false) :
    registerHandler env body db =
      ⟨some (.badRequest "All fields are required."), db, []⟩ := by
  simp [registerHandler, bang_or, h]

theorem register_findOne_fails (env : DbEnv) (body : ReqBody) (db : Store)
    (hfp : fieldsPresent body = true) (hr : env.findOneFails = true) :
    registerHandler env body db = ⟨none, db, [.read (fieldStr body.email)]⟩ := by
  simp [registerHandler, bang_or, hfp, hr]

theorem register_duplicate (env : DbEnv) (body : ReqBody) (db : Store) (u : User)
    (hfp : fieldsPresent body = true) (hr : env.findOneFails = false)
    (hdup : findByEmail db (fieldStr body.email) = some u) :
    registerHandler env body db =
      ⟨some (.badRequest "Email is already registered."), db,
        [.read (fieldStr body.email)]⟩ := by
  simp [registerHandler, bang_or, hfp, hr, hdup]

theorem register_save_fails (env : DbEnv) (body : ReqBody) (db : Store)
    (hfp : fieldsPresent body = true) (hr : env.findOneFails = false)
    (hdup : findByEmail db (fieldStr body.email) = none)
    (hw : env.saveFails = true) :
    registerHandler env body db =
      ⟨some (.serverError "Server error"), db,
        [.read (fieldStr body.email), .write (newUserOf env body)]⟩ := by
  simp [registerHandler, bang_or, hfp, hr, hdup, hw]

theorem register_success (env : DbEnv) (body : ReqBody) (db : Store)
    (hfp : fieldsPresent body = true) (hr : env.findOneFails = false)
    (hdup : findByEmail db (fieldStr body.email) = none)
    (hw : env.saveFails = false) :
    registerHandler env body db =
      ⟨some (.created "User registered successfully!" (newUserOf env body)),
        db ++ [newUserOf env body],
        [.read (fieldStr body.email), .write (newUserOf env body)]⟩ := by
  simp [registerHandler, bang_or, hfp, hr, hdup, hw]

theorem fieldsPresent_of_strings (n e p : String)
    (hn : n ≠ "") (he : e ≠ "") (hp : p ≠ "") :
    fieldsPresent ⟨some (.jstr n), some (.jstr e), some (.jstr p)⟩ = true := by
  simp [fieldsPresent, truthy, hn, he, hp]

/-! ### Claim theorems -/

/-- C1: for every registration request whose name, email, and password are
all non-empty strings and whose email is not already in the store (and whose
two Mongoose calls do not fail for infrastructural reasons), the handler
responds 201 with the success message, the record appended to the store has
the given name and email, and its password field is a bcrypt digest distinct
from the plain-text password. -/
theorem register_new_email_hashes_password
    (env : DbEnv) (n e p : String) (db : Store)
    (hn : n ≠ "") (he : e ≠ "") (hp : p ≠ "")
    (hdup : findByEmail db e = none)
    (hr : env.findOneFails = false) (hw : env.saveFails = false) :
    ∃ resp u,
      (registerHandler env ⟨some (.jstr n), some (.jstr e), some (.jstr p)⟩
          db).response = some resp ∧
      resp = .created "User registered successfully!" u ∧
      resp.status = 201 ∧
      (registerHandler env ⟨some (.jstr n), some (.jstr e), some (.jstr p)⟩
          db).store = db ++ [u] ∧
      u.name = n ∧ u.email = e ∧
      isBcryptDigest u.password ∧ u.password ≠ p := by
  have hfp := fieldsPresent_of_strings n e p hn he hp
  have hdup' : findByEmail db
      (fieldStr (ReqBody.mk (some (.jstr n)) (some (.jstr e))
        (some (.jstr p))).email) = none := hdup
  rw [register_success env _ db hfp hr hdup' hw]
  exact ⟨_, newUserOf env ⟨some (.jstr n), some (.jstr e), some (.jstr p)⟩,
    rfl, rfl, rfl, rfl, rfl, rfl, ⟨bcryptCost, env.salt, p, rfl⟩,
    bcryptHash_ne_plain bcryptCost env.salt p⟩

/-- C1 witness: the spec scenario at concrete inputs. -/
theorem register_new_email_hashes_password_witness :
    ∃ resp u,
      (registerHandler ⟨false, false, 3⟩
          ⟨some (.jstr "Jane Doe"), some (.jstr "jane@example.com"),
            some (.jstr "password123")⟩ []).response = some resp ∧
      resp = .created "User registered successfully!" u ∧
      resp.status = 201 ∧
      (registerHandler ⟨false, false, 3⟩
          ⟨some (.jstr "Jane Doe"), some (.jstr "jane@example.com"),
            some (.jstr "password123")⟩ []).store = [] ++ [u] ∧
      u.name = "Jane Doe" ∧ u.email = "jane@example.com" ∧
      isBcryptDigest u.password ∧ u.password ≠ "password123" :=
  register_new_email_hashes_password ⟨false, false, 3⟩
    "Jane Doe" "jane@example.com" "password123" []
    (by decide) (by decide) (by decide) rfl rfl rfl

/-- C3: if any of the three fields is absent or the empty string, the
handler responds 400 "All fields are required.", the store is unchanged and
no store operation is issued. -/
theorem register_missing_field (env : DbEnv) (body : ReqBody) (db : Store)
    (h : (body.name = none ∨ body.name = some (.jstr "")) ∨
         (body.email = none ∨ body.email = some (.jstr "")) ∨
         (body.password = none ∨ body.password = some (.jstr ""))) :
    registerHandler env body db =
      ⟨some (.badRequest "All fields are required."), db, []⟩ := by
  apply register_not_present
  rcases h with h | h | h <;> rcases h with h | h <;>
    simp [fieldsPresent, h, truthy]

/-- C3 witness: an empty email field at concrete inputs. -/
theorem register_missing_field_witness :
    registerHandler ⟨false, false, 0⟩
        ⟨some (.jstr "Jane Doe"), some (.jstr ""), some (.jstr "pw")⟩
        [⟨"A", "a@x.com", "h"⟩] =
      ⟨some (.badRequest "All fields are required."),
        [⟨"A", "a@x.com", "h"⟩], []⟩ :=
  register_missing_field ⟨false, false, 0⟩
    ⟨some (.jstr "Jane Doe"), some (.jstr ""), some (.jstr "pw")⟩
    [⟨"A", "a@x.com", "h"⟩] (Or.inr (Or.inl (Or.inr rfl)))

/-- C4: every registration invocation preserves pairwise-distinct emails in
the store (exact string equality). -/
theorem register_preserves_distinctEmails
    (env : DbEnv) (body : ReqBody) (db : Store) (h : distinctEmails db) :
    distinctEmails (registerHandler env body db).store := by
  unfold registerHandler
  split
  · exact h
  · split
    · exact h
    · split
      · exact h
      · next heq =>
        split
        · exact h
        · rw [show (RegResult.mk
              (some (.created "User registered successfully!"
                (newUserOf env body)))
              (db ++ [newUserOf env body])
              [.read (fieldStr body.email),
                .write (newUserOf env body)]).store
            = db ++ [newUserOf env body] from rfl]
          unfold distinctEmails
          rw [List.pairwise_append]
          refine ⟨h, List.pairwise_singleton _ _, ?_⟩
          intro a ha b hb
          rw [List.mem_singleton] at hb
          subst hb
          have hne := List.find?_eq_none.mp heq a ha
          intro hcontra
          exact hne (by simp [newUserOf] at hcontra; simp [hcontra])

/-- C4 witness: preservation at a concrete store with two distinct emails. -/
theorem register_preserves_distinctEmails_witness :
    distinctEmails (registerHandler ⟨false, false, 0⟩
      ⟨some (.jstr "C"), some (.jstr "c@x.com"), some (.jstr "pw")⟩
      [⟨"A", "a@x.com", "h1"⟩, ⟨"B", "b@x.com", "h2"⟩]).store :=
  register_preserves_distinctEmails ⟨false, false, 0⟩
    ⟨some (.jstr "C"), some (.jstr "c@x.com"), some (.jstr "pw")⟩
    [⟨"A", "a@x.com", "h1"⟩, ⟨"B", "b@x.com", "h2"⟩] (by
      unfold distinctEmails
      exact List.pairwise_cons.mpr ⟨by decide, List.pairwise_singleton _ _⟩)

/-- C5: verifying a password against its own hash succeeds, for every
password string (empty and non-ASCII included) and every salt. -/
theorem verify_hash_roundtrip (salt : Nat) (p : String) :
    verifyPassword p (hashPassword salt p) = true :=
  bcryptCompare_hash bcryptCost salt p

/-- C6: hashing the same password with two distinct fresh salts yields two
distinct digests, and both digests verify against the password. -/
theorem hash_twice_distinct_digests (p : String) (s₁ s₂ : Nat) (h : s₁ ≠ s₂) :
    hashPassword s₁ p ≠ hashPassword s₂ p ∧
    verifyPassword p (hashPassword s₁ p) = true ∧
    verifyPassword p (hashPassword s₂ p) = true :=
  ⟨bcryptHash_salt_ne bcryptCost s₁ s₂ p h,
    bcryptCompare_hash bcryptCost s₁ p, bcryptCompare_hash bcryptCost s₂ p⟩

/-- C6 witness: two concrete salts for a concrete password. -/
theorem hash_twice_distinct_digests_witness :
    hashPassword 0 "password123" ≠ hashPassword 1 "password123" ∧
    verifyPassword "password123" (hashPassword 0 "password123") = true ∧
    verifyPassword "password123" (hashPassword 1 "password123") = true :=
  hash_twice_distinct_digests "password123" 0 1 (by decide)

/-- C2 counterexample: with an empty name in the second call, the second call
with the same email is rejected by the validation step, not with the
duplicate-email message the claim requires for arbitrary name/password
values. -/
theorem second_register_arbitrary_fields_cex :
    (registerHandler ⟨false, false, 0⟩
        ⟨some (.jstr ""), some (.jstr "jane@example.com"), some (.jstr "q")⟩
        (registerHandler ⟨false, false, 0⟩
          ⟨some (.jstr "Jane Doe"), some (.jstr "jane@example.com"),
            some (.jstr "pw")⟩ []).store).response
      = some (.badRequest "All fields are required.") ∧
    (registerHandler ⟨false, false, 0⟩
        ⟨some (.jstr ""), some (.jstr "jane@example.com"), some (.jstr "q")⟩
        (registerHandler ⟨false, false, 0⟩
          ⟨some (.jstr "Jane Doe"), some (.jstr "jane@example.com"),
            some (.jstr "pw")⟩ []).store).response
      ≠ some (.badRequest "Email is already registered.") := by
  decide

/-- C2 (amended): after a successful registration of an email, a second
registration call with the same email and any non-empty name and password
values responds 400 "Email is already registered.", leaves the store
unchanged, and the store holds exactly one record with that email. -/
theorem second_register_same_email_rejected
    (env₁ env₂ : DbEnv) (n₁ e p₁ n₂ p₂ : String) (db : Store)
    (hn₁ : n₁ ≠ "") (he : e ≠ "") (hp₁ : p₁ ≠ "")
    (hn₂ : n₂ ≠ "") (hp₂ : p₂ ≠ "")
    (hdup : findByEmail db e = none)
    (hr₁ : env₁.findOneFails = false) (hw₁ : env₁.saveFails = false)
    (hr₂ : env₂.findOneFails = false) :
    (registerHandler env₂
        ⟨some (.jstr n₂), some (.jstr e), some (.jstr p₂)⟩
        (registerHandler env₁
          ⟨some (.jstr n₁), some (.jstr e), some (.jstr p₁)⟩ db).store).response
      = some (.badRequest "Email is already registered.") ∧
    (registerHandler env₂
        ⟨some (.jstr n₂), some (.jstr e), some (.jstr p₂)⟩
        (registerHandler env₁
          ⟨some (.jstr n₁), some (.jstr e), some (.jstr p₁)⟩ db).store).store
      = (registerHandler env₁
          ⟨some (.jstr n₁), some (.jstr e), some (.jstr p₁)⟩ db).store ∧
    ((registerHandler env₂
        ⟨some (.jstr n₂), some (.jstr e), some (.jstr p₂)⟩
        (registerHandler env₁
          ⟨some (.jstr n₁), some (.jstr e), some (.jstr p₁)⟩ db).store).store.countP
      fun u => u.email == e) = 1 := by
  have hdup' : db.find? (fun u => u.email == e) = none := hdup
  have hfp₁ := fieldsPresent_of_strings n₁ e p₁ hn₁ he hp₁
  have hstore₁ : (registerHandler env₁
      ⟨some (.jstr n₁), some (.jstr e), some (.jstr p₁)⟩ db).store
      = db ++ [newUserOf env₁ ⟨some (.jstr n₁), some (.jstr e),
          some (.jstr p₁)⟩] := by
    rw [register_success env₁ _ db hfp₁ hr₁ hdup hw₁]
  have hfind₂ : findByEmail
      (db ++ [newUserOf env₁ ⟨some (.jstr n₁), some (.jstr e),
        some (.jstr p₁)⟩]) e
      = some (newUserOf env₁ ⟨some (.jstr n₁), some (.jstr e),
          some (.jstr p₁)⟩) := by
    unfold findByEmail
    rw [List.find?_append, hdup']
    simp [newUserOf, fieldStr, castString]
  have hfp₂ := fieldsPresent_of_strings n₂ e p₂ hn₂ he hp₂
  have hs₂ := register_duplicate env₂
    ⟨some (.jstr n₂), some (.jstr e), some (.jstr p₂)⟩ _ _ hfp₂ hr₂ hfind₂
  rw [hstore₁, hs₂]
  refine ⟨rfl, rfl, ?_⟩
  rw [List.countP_append]
  have h0 : db.countP (fun u => u.email == e) = 0 :=
    List.countP_eq_zero.mpr (List.find?_eq_none.mp hdup')
  rw [h0]
  simp [List.countP_cons, newUserOf, fieldStr, castString]

/-- C2 witness: concrete duplicate registration after a successful one. -/
theorem second_register_same_email_rejected_witness :
    (registerHandler ⟨false, false, 1⟩
        ⟨some (.jstr "John"), some (.jstr "jane@example.com"),
          some (.jstr "other")⟩
        (registerHandler ⟨false, false, 0⟩
          ⟨some (.jstr "Jane Doe"), some (.jstr "jane@example.com"),
            some (.jstr "pw")⟩ []).store).response
      = some (.badRequest "Email is already registered.") ∧
    (registerHandler ⟨false, false, 1⟩
        ⟨some (.jstr "John"), some (.jstr "jane@example.com"),
          some (.jstr "other")⟩
        (registerHandler ⟨false, false, 0⟩
          ⟨some (.jstr "Jane Doe"), some (.jstr "jane@example.com"),
            some (.jstr "pw")⟩ []).store).store
      = (registerHandler ⟨false, false, 0⟩
          ⟨some (.jstr "Jane Doe"), some (.jstr "jane@example.com"),
            some (.jstr "pw")⟩ []).store ∧
    ((registerHandler ⟨false, false, 1⟩
        ⟨some (.jstr "John"), some (.jstr "jane@example.com"),
          some (.jstr "other")⟩
        (registerHandler ⟨false, false, 0⟩
          ⟨some (.jstr "Jane Doe"), some (.jstr "jane@example.com"),
            some (.jstr "pw")⟩ []).store).store.countP
      fun u => u.email == "jane@example.com") = 1 :=
  second_register_same_email_rejected ⟨false, false, 0⟩ ⟨false, false, 1⟩
    "Jane Doe" "jane@example.com" "pw" "John" "other" []
    (by decide) (by decide) (by decide) (by decide) (by decide) rfl rfl rfl rfl

/-- C7 counterexample: a failing `User.findOne` happens outside the
`try/catch`, so the handler sends no response at all — in particular not the
500 "Server error" the claim requires for a failing read. -/
theorem read_failure_not_500_cex :
    (registerHandler ⟨true, false, 0⟩
        ⟨some (.jstr "Jane Doe"), some (.jstr "jane@example.com"),
          some (.jstr "pw")⟩ []).response = none ∧
    (registerHandler ⟨true, false, 0⟩
        ⟨some (.jstr "Jane Doe"), some (.jstr "jane@example.com"),
          some (.jstr "pw")⟩ []).response
      ≠ some (.serverError "Server error") := by
  decide

/-- C7 (amended): when the write (`newUser.save()`) fails the handler
responds 500 with the generic body "Server error" and nothing else; when the
read (`User.findOne`) fails, the rejection is outside the `try/catch` and the
handler sends no response at all. -/
theorem persistence_failure_behaviour
    (env : DbEnv) (body : ReqBody) (db : Store)
    (hfp : fieldsPresent body = true) :
    (env.findOneFails = true →
      (registerHandler env body db).response = none) ∧
    (env.findOneFails = false → env.saveFails = true →
      findByEmail db (fieldStr body.email) = none →
      (registerHandler env body db).response
        = some (.serverError "Server error")) := by
  constructor
  · intro hr
    rw [register_findOne_fails env body db hfp hr]
  · intro hr hw hdup
    rw [register_save_fails env body db hfp hr hdup hw]

/-- C7 witness: both failure modes at concrete inputs. -/
theorem persistence_failure_behaviour_witness :
    (registerHandler ⟨true, false, 0⟩
        ⟨some (.jstr "Jane Doe"), some (.jstr "jane@example.com"),
          some (.jstr "pw")⟩ []).response = none ∧
    (registerHandler ⟨false, true, 0⟩
        ⟨some (.jstr "Jane Doe"), some (.jstr "jane@example.com"),
          some (.jstr "pw")⟩ []).response
      = some (.serverError "Server error") :=
  ⟨(persistence_failure_behaviour ⟨true, false, 0⟩
      ⟨some (.jstr "Jane Doe"), some (.jstr "jane@example.com"),
        some (.jstr "pw")⟩ [] (by decide)).1 rfl,
   (persistence_failure_behaviour ⟨false, true, 0⟩
      ⟨some (.jstr "Jane Doe"), some (.jstr "jane@example.com"),
        some (.jstr "pw")⟩ [] (by decide)).2 rfl rfl rfl⟩

/-- C8 counterexample: an invocation that fails validation issues no read at
all, refuting "every invocation performs exactly one read". -/
theorem validation_failure_no_read_cex :
    ¬ ((registerHandler ⟨false, false, 0⟩ ⟨none, none, none⟩ []).ops.countP
        DbOp.isRead = 1) := by
  decide

/-- C8 (amended): the handler's store-operation trace is empty when
validation fails; otherwise it is exactly the one existence-check read,
followed by exactly the one write precisely when the read succeeds and finds
no duplicate.  Nothing is retried and no other operation occurs. -/
theorem register_ops_spec (env : DbEnv) (body : ReqBody) (db : Store) :
    (registerHandler env body db).ops =
      if fieldsPresent body = true then
        .read (fieldStr body.email) ::
          (if env.findOneFails = false ∧
              findByEmail db (fieldStr body.email) = none then
            [.write (newUserOf env body)]
          else [])
      else [] := by
  cases hfp : fieldsPresent body with
  | false =>
    rw [register_not_present env body db hfp]
    simp [hfp]
  | true =>
    cases hr : env.findOneFails with
    | true =>
      rw [register_findOne_fails env body db hfp hr]
      simp [hfp, hr]
    | false =>
      cases hdup : findByEmail db (fieldStr body.email) with
      | some u =>
        rw [register_duplicate env body db u hfp hr hdup]
        simp [hfp, hr, hdup]
      | none =>
        cases hw : env.saveFails with
        | true =>
          rw [register_save_fails env body db hfp hr hdup hw]
          simp [hfp, hr, hdup]
        | false =>
          rw [register_success env body db hfp hr hdup hw]
          simp [hfp, hr, hdup]

/-- C9: on every successful registration the 201 response carries the full
stored record, its password field holding the bcrypt digest. -/
theorem response_contains_saved_user
    (env : DbEnv) (body : ReqBody) (db : Store)
    (hfp : fieldsPresent body = true) (hr : env.findOneFails = false)
    (hdup : findByEmail db (fieldStr body.email) = none)
    (hw : env.saveFails = false) :
    ∃ u, (registerHandler env body db).response
        = some (.created "User registered successfully!" u) ∧
      (registerHandler env body db).store = db ++ [u] ∧
      u.password = bcryptHash bcryptCost env.salt (fieldStr body.password) ∧
      isBcryptDigest u.password := by
  rw [register_success env body db hfp hr hdup hw]
  exact ⟨newUserOf env body, rfl, rfl, rfl, ⟨bcryptCost, env.salt, _, rfl⟩⟩

/-- C9 witness: the hash is in the response at concrete inputs. -/
theorem response_contains_saved_user_witness :
    ∃ u, (registerHandler ⟨false, false, 4⟩
        ⟨some (.jstr "Jane Doe"), some (.jstr "jane@example.com"),
          some (.jstr "pw")⟩ []).response
        = some (.created "User registered successfully!" u) ∧
      (registerHandler ⟨false, false, 4⟩
        ⟨some (.jstr "Jane Doe"), some (.jstr "jane@example.com"),
          some (.jstr "pw")⟩ []).store = [] ++ [u] ∧
      u.password = bcryptHash bcryptCost 4
        (fieldStr (some (.jstr "pw"))) ∧
      isBcryptDigest u.password :=
  response_contains_saved_user ⟨false, false, 4⟩
    ⟨some (.jstr "Jane Doe"), some (.jstr "jane@example.com"),
      some (.jstr "pw")⟩ [] (by decide) rfl rfl rfl

/-- A field value every JavaScript falsiness test rejects: absent, `null`,
the empty string, `0`, or `false`. -/
def falsyField (v : Option JsonValue) : Prop :=
  v = none ∨ v = some .jnull ∨ v = some (.jstr "") ∨
    v = some (.jnum 0) ∨ v = some (.jbool false)

/-- C10: when any of the three fields is falsy — absent, null, empty string,
0, or false — the handler responds 400 "All fields are required.", the store
is untouched and no store operation is issued. -/
theorem register_falsy_field (env : DbEnv) (body : ReqBody) (db : Store)
    (h : falsyField body.name ∨ falsyField body.email ∨
      falsyField body.password) :
    registerHandler env body db =
      ⟨some (.badRequest "All fields are required."), db, []⟩ := by
  apply register_not_present
  rcases h with h | h | h <;> rcases h with h | h | h | h | h <;>
    simp [fieldsPresent, h, truthy]

/-- C10 witness: a numeric `0` password at concrete inputs. -/
theorem register_falsy_field_witness :
    registerHandler ⟨false, false, 0⟩
        ⟨some (.jstr "Jane Doe"), some (.jstr "jane@example.com"),
          some (.jnum 0)⟩ [⟨"A", "a@x.com", "h"⟩] =
      ⟨some (.badRequest "All fields are required."),
        [⟨"A", "a@x.com", "h"⟩], []⟩ :=
  register_falsy_field ⟨false, false, 0⟩
    ⟨some (.jstr "Jane Doe"), some (.jstr "jane@example.com"),
      some (.jnum 0)⟩ [⟨"A", "a@x.com", "h"⟩]
    (Or.inr (Or.inr (Or.inr (Or.inr (Or.inr (Or.inl rfl))))))

end ExpressAuth
